import Mathlib

/-!
Shallow embedding of the `task/upload` Django app (cysof/fileUpload):
the `FileUploadSerializer` validation, the `upload_to_cloudinary` gateway
adapter, the `UploadFileViewSet.create` orchestration and the read
endpoints, together with the `UploadedFile` model and its serializers.

File bytes, the HTTP transport and the ORM are external collaborators;
they enter the model as explicit inputs (the submitted file's metadata,
the transport outcome of the Cloudinary call, and the outcome of the
single database write).
-/

namespace Upload

/-- An incoming multipart file as the serializer sees it: a name, a byte
length (`value.size`) and a declared MIME type (`value.content_type`). -/
structure UFile where
  name : String
  size : Nat
  content_type : String
deriving Repr, DecidableEq

/-- The limit `max_size = 10 * 1024 * 1024` from `FileUploadSerializer.validate_file`. -/
def max_size : Nat := 10 * 1024 * 1024

/-- The `allowed_types` list from `FileUploadSerializer.validate_file`. -/
def allowed_types : List String :=
  ["image/jpeg", "image/jpg", "image/png", "image/gif",
   "application/pdf", "text/plain", "application/msword",
   "application/vnd.openxmlformats-officedocument.wordprocessingml.document"]

/-- Embeds `FileUploadSerializer.validate_file`: size check first (strict `>`),
then membership of the declared content type in the allow-list; a failing
check raises `ValidationError` with the corresponding message. -/
def validate_file (value : UFile) : Except String UFile :=
  if value.size > max_size then
    .error "File size cannot exceed 10MB"
  else if value.content_type ∉ allowed_types then
    .error ("File type '" ++ value.content_type ++ "' is not supported. " ++
      "Allowed types: " ++ String.intercalate ", " allowed_types)
  else
    .ok value

/-- A Cloudinary result dictionary, as far as the code reads it:
`error` is `result.get("error")` (`none` when the key is absent) and
`secure_url` is `some u` exactly when `"secure_url" in result`. -/
structure CloudResult where
  error : Option String
  secure_url : Option String
deriving Repr, DecidableEq

/-- Python truthiness of `result.get("error")`: an absent key is `None`
(falsy) and an empty string is falsy. -/
def errTruthy (r : CloudResult) : Bool :=
  match r.error with
  | none => false
  | some e => e ≠ ""

/-- What the underlying transport (`cloudinary.uploader.upload`) did:
returned a dictionary or raised an exception with message `e`. -/
inductive TransportOutcome where
  | ok (result : CloudResult)
  | raises (e : String)
deriving Repr, DecidableEq

/-- Embeds `upload_to_cloudinary`: returns the transport's dictionary unchanged,
or, when the transport raises, the dictionary `{"error": str(e)}` (which
has no `secure_url` key). It is total: no exception propagates. -/
def upload_to_cloudinary : TransportOutcome → CloudResult
  | .ok result => result
  | .raises e => { error := some e, secure_url := none }

/-- A persisted `UploadedFile` row. `file_size` and `content_type` are
nullable columns; `created_at` is a timestamp (modelled as `Nat`). -/
structure Record where
  id : Nat
  original_name : String
  cloudinary_url : String
  file_size : Option Nat
  content_type : Option String
  created_at : Nat
deriving Repr, DecidableEq

/-- Round half to even (Python's `round` tie-breaking) of a rational to
an integer. -/
def roundHalfEven (q : ℚ) : ℤ :=
  if q - ⌊q⌋ < 1/2 then ⌊q⌋
  else if 1/2 < q - ⌊q⌋ then ⌊q⌋ + 1
  else if ⌊q⌋ % 2 = 0 then ⌊q⌋ else ⌊q⌋ + 1

/-- Python's `round(x, 2)` on an exact value: round `x * 100` half to
even, then divide back. -/
def pyRound2 (q : ℚ) : ℚ := (roundHalfEven (q * 100) : ℚ) / 100

/-- Embeds `UploadedFileSerializer.get_file_size_mb` (same body as the model
property `UploadedFile.file_size_mb`): `round(file_size / (1024*1024), 2)`
when `obj.file_size` is truthy — a `None` field and a zero field are both
falsy and yield `None`. -/
def get_file_size_mb (file_size : Option Nat) : Option ℚ :=
  match file_size with
  | some n => if n ≠ 0 then some (pyRound2 ((n : ℚ) / (1024 * 1024))) else none
  | none => none

/-- The record as `UploadedFileSerializer` renders it: the `Meta.fields`
list `id, original_name, cloudinary_url, file_size, file_size_mb,
content_type, upload_date` with `upload_date` sourced from `created_at`. -/
structure SerializedRecord where
  id : Nat
  original_name : String
  cloudinary_url : String
  file_size : Option Nat
  file_size_mb : Option ℚ
  content_type : Option String
  upload_date : Nat
deriving Repr, DecidableEq

/-- Apply `UploadedFileSerializer` to one record. -/
def serializeRecord (r : Record) : SerializedRecord :=
  { id := r.id
    original_name := r.original_name
    cloudinary_url := r.cloudinary_url
    file_size := r.file_size
    file_size_mb := get_file_size_mb r.file_size
    content_type := r.content_type
    upload_date := r.created_at }

/-- The `errors` object of a failure envelope: DRF field errors keyed
under `file`, `{'cloudinary': msg}`, or `{'server': msg}`. -/
inductive ErrorsObj where
  | fileField (msgs : List String)
  | cloudinary (msg : String)
  | server (msg : String)
deriving Repr, DecidableEq

/-- The uniform response envelope `{success, message, data?, errors?}`
together with the HTTP status code. -/
structure ResponseEnv where
  status : Nat
  success : Bool
  message : String
  data : Option SerializedRecord
  errors : Option ErrorsObj
deriving Repr, DecidableEq

/-- Outcome of the single `UploadedFile.objects.create` call: the write
committed, or the store raised an exception with message `e`. -/
inductive PersistOutcome where
  | ok
  | raises (e : String)
deriving Repr, DecidableEq

/-- One create request's external circumstances: the multipart `file`
field (absent when no file was submitted), what the Cloudinary transport
would do, what the database write would do, and the current time used
for `created_at`. -/
structure CreateInput where
  file : Option UFile
  transport : TransportOutcome
  persist : PersistOutcome
  now : Nat
deriving Repr, DecidableEq

/-- Everything observable about one create request: the HTTP response,
the store afterwards, how many database write attempts were made, and
the messages logged via `logger.error`. -/
structure CreateOutcome where
  response : ResponseEnv
  store : List Record
  writeAttempts : Nat
  logs : List String
deriving Repr, DecidableEq

/-- Embeds `UploadFileViewSet.create`: validate, call the gateway, branch on
`result.get("error")` then on `"secure_url" in result`, perform the one
database write, and shape the envelope; the `except` clause turns a
raising write into the logged 500 response. The store is a list of rows;
a committed write appends a row with the next id. -/
def create (inp : CreateInput) (store : List Record) : CreateOutcome :=
  match inp.file with
  | none =>
      { response := { status := 400, success := false, message := "Validation failed",
                      data := none, errors := some (.fileField ["No file was submitted."]) }
        store := store, writeAttempts := 0, logs := [] }
  | some file =>
    match validate_file file with
    | .error msg =>
        { response := { status := 400, success := false, message := "Validation failed",
                        data := none, errors := some (.fileField [msg]) }
          store := store, writeAttempts := 0, logs := [] }
    | .ok _ =>
      let result := upload_to_cloudinary inp.transport
      if errTruthy result then
        { response := { status := 400, success := false, message := "Cloudinary upload failed",
                        data := none, errors := some (.cloudinary (result.error.getD "")) }
          store := store, writeAttempts := 0, logs := [] }
      else
        match result.secure_url with
        | none =>
            { response := { status := 400, success := false,
                            message := "Upload failed - no URL received",
                            data := none, errors := some (.cloudinary "No secure URL returned") }
              store := store, writeAttempts := 0, logs := [] }
        | some url =>
          match inp.persist with
          | .raises e =>
              { response := { status := 500, success := false, message := "Upload failed",
                              data := none, errors := some (.server e) }
                store := store, writeAttempts := 1
                logs := ["Upload error: " ++ e] }
          | .ok =>
            let row : Record :=
              { id := store.length + 1
                original_name := file.name
                cloudinary_url := url
                file_size := some file.size
                content_type := some file.content_type
                created_at := inp.now }
            { response := { status := 201, success := true,
                            message := "File uploaded successfully",
                            data := some (serializeRecord row), errors := none }
              store := store ++ [row], writeAttempts := 1, logs := [] }

/-- Insert a record into a list already ordered descending by
`created_at`, keeping that order (the comparison the ORM applies for
`Meta.ordering = ['-created_at']`). -/
def insertDesc (r : Record) : List Record → List Record
  | [] => [r]
  | x :: xs => if x.created_at ≤ r.created_at then r :: x :: xs else x :: insertDesc r xs

/-- Order a store's rows descending by `created_at`, the default queryset
order from `UploadedFile.Meta.ordering = ['-created_at']`. -/
def orderByCreatedDesc : List Record → List Record
  | [] => []
  | x :: xs => insertDesc x (orderByCreatedDesc xs)

/-- The body of a `list` response. -/
structure ListResponse where
  status : Nat
  success : Bool
  count : Nat
  data : List SerializedRecord
deriving Repr, DecidableEq

/-- Embeds `UploadFileViewSet.list`: serialize the default-ordered queryset and
wrap it as `{'success': True, 'count': len(serializer.data), 'data': ...}`
with status 200. -/
def listFiles (store : List Record) : ListResponse :=
  let data := (orderByCreatedDesc store).map serializeRecord
  { status := 200, success := true, count := data.length, data := data }

/-- Modelled from the spec (for comparison with `get_file_size_mb`):
"`file_size_mb` is present and equals `round(file_size / 1048576, 2)`
whenever `file_size` is set; absent/null otherwise." -/
def spec_file_size_mb (file_size : Option Nat) : Option ℚ :=
  match file_size with
  | some n => some (pyRound2 ((n : ℚ) / 1048576))
  | none => none

/-- A concrete 11-byte text file, the spec's happy-path scenario. -/
def happyFile : UFile := ⟨"test.txt", 11, "text/plain"⟩

/-- A concrete create input for the happy-path scenario: valid file,
gateway dictionary with a secure URL, committing write. -/
def happyInput : CreateInput :=
  { file := some happyFile, transport := .ok ⟨none, some "https://host/x.png"⟩,
    persist := .ok, now := 7 }

/-- A create input whose gateway dictionary carries an `error` key bound
to the empty string and no `secure_url` key (what `upload_to_cloudinary`
returns when the transport raises an exception whose `str` is empty). -/
def emptyErrInput : CreateInput :=
  { file := some happyFile, transport := .ok ⟨some "", none⟩, persist := .ok, now := 0 }

/-- A create input whose gateway call succeeds but whose database write
raises. -/
def raiseInput : CreateInput :=
  { file := some happyFile, transport := .ok ⟨none, some "https://host/x.png"⟩,
    persist := .raises "db down", now := 0 }

/-- A create input whose gateway dictionary carries both a non-empty
`error` value and a `secure_url` key. -/
def errUrlInput : CreateInput :=
  { file := some happyFile, transport := .ok ⟨some "boom", some "https://host/x.png"⟩,
    persist := .ok, now := 0 }

/-- A persisted row whose `file_size` column is set to 0. -/
def zeroSizeRecord : Record :=
  { id := 1, original_name := "empty.txt", cloudinary_url := "https://host/e.txt",
    file_size := some 0, content_type := some "text/plain", created_at := 0 }

/-- A persisted row whose `file_size` column is set to exactly one MiB. -/
def oneMbRecord : Record :=
  { id := 2, original_name := "a.pdf", cloudinary_url := "https://host/a.pdf",
    file_size := some 1048576, content_type := some "application/pdf", created_at := 1 }

/-- Three rows with strictly increasing creation times 1 < 2 < 3. -/
def rowAt (t : Nat) : Record :=
  { id := t, original_name := "f", cloudinary_url := "https://host/f",
    file_size := some t, content_type := some "text/plain", created_at := t }

/-- Inserting into a list is a permutation of consing. -/
theorem insertDesc_perm (r : Record) (l : List Record) : List.Perm (insertDesc r l) (r :: l) := by
  induction l with
  | nil => rfl
  | cons x xs ih =>
    simp only [insertDesc]
    split
    · exact List.Perm.refl _
    · exact (ih.cons x).trans (List.Perm.swap r x xs)

/-- Ordering the store does not add or drop rows. -/
theorem orderByCreatedDesc_perm (l : List Record) : List.Perm (orderByCreatedDesc l) l := by
  induction l with
  | nil => rfl
  | cons x xs ih => exact (insertDesc_perm x (orderByCreatedDesc xs)).trans (ih.cons x)

/-- C1. A file strictly larger than 10485760 bytes fails validation with
the file-size error; the create request answers 400, success false, with
the size error keyed under `file`, and leaves the store unchanged. A file
of at most 10485760 bytes with an allowed content type passes validation
outright. -/
theorem C1_size_limit (inp : CreateInput) (store : List Record) (f : UFile)
    (hf : inp.file = some f) :
    (f.size > 10485760 →
      (create inp store).response.status = 400 ∧
      (create inp store).response.success = false ∧
      (create inp store).response.errors =
        some (.fileField ["File size cannot exceed 10MB"]) ∧
      (create inp store).store = store ∧
      (create inp store).writeAttempts = 0) ∧
    (f.size ≤ 10485760 → f.content_type ∈ allowed_types →
      validate_file f = .ok f) := by
  constructor
  · intro h
    have hv : validate_file f = .error "File size cannot exceed 10MB" := by
      unfold validate_file max_size
      rw [if_pos (by omega)]
    simp [create, hf, hv]
  · intro h1 h2
    unfold validate_file max_size
    rw [if_neg (by omega), if_neg (by simpa using h2)]

/-- Witness for C1 at a 10485761-byte text file. -/
theorem C1_size_limit_witness :
    (({ file := some ⟨"big.txt", 10485761, "text/plain"⟩,
        transport := .ok ⟨none, none⟩, persist := .ok, now := 0 } :
        CreateInput).file = some ⟨"big.txt", 10485761, "text/plain"⟩) ∧
    ((⟨"big.txt", 10485761, "text/plain"⟩ : UFile).size > 10485760 →
      (create { file := some ⟨"big.txt", 10485761, "text/plain"⟩,
                transport := .ok ⟨none, none⟩, persist := .ok, now := 0 } []).response.status = 400 ∧
      (create { file := some ⟨"big.txt", 10485761, "text/plain"⟩,
                transport := .ok ⟨none, none⟩, persist := .ok, now := 0 } []).response.success = false ∧
      (create { file := some ⟨"big.txt", 10485761, "text/plain"⟩,
                transport := .ok ⟨none, none⟩, persist := .ok, now := 0 } []).response.errors =
        some (.fileField ["File size cannot exceed 10MB"]) ∧
      (create { file := some ⟨"big.txt", 10485761, "text/plain"⟩,
                transport := .ok ⟨none, none⟩, persist := .ok, now := 0 } []).store = [] ∧
      (create { file := some ⟨"big.txt", 10485761, "text/plain"⟩,
                transport := .ok ⟨none, none⟩, persist := .ok, now := 0 } []).writeAttempts = 0) ∧
    ((⟨"big.txt", 10485761, "text/plain"⟩ : UFile).size ≤ 10485760 →
      (⟨"big.txt", 10485761, "text/plain"⟩ : UFile).content_type ∈ allowed_types →
      validate_file ⟨"big.txt", 10485761, "text/plain"⟩ =
        .ok ⟨"big.txt", 10485761, "text/plain"⟩) :=
  ⟨rfl, C1_size_limit _ [] _ rfl⟩

/-- C4. Given the size check passes, validation rejects exactly the files
whose declared content type is outside the eight-element allow-list; the
decision reads nothing but the declared type (no content inspection is
modelled because none exists in the code), and a rejected request answers
400 with the store unchanged. -/
theorem C4_type_allowlist (f : UFile) (hs : f.size ≤ max_size) :
    ((validate_file f).isOk = true ↔ f.content_type ∈ allowed_types) ∧
    (f.content_type ∈ allowed_types → validate_file f = .ok f) ∧
    (f.content_type ∉ allowed_types →
      validate_file f =
        .error ("File type '" ++ f.content_type ++ "' is not supported. " ++
          "Allowed types: " ++ String.intercalate ", " allowed_types) ∧
      ∀ inp store, inp.file = some f →
        (create inp store).response.status = 400 ∧
        (create inp store).response.success = false ∧
        (create inp store).store = store ∧
        (create inp store).writeAttempts = 0) := by
  have hnotbig : ¬ f.size > max_size := by omega
  refine ⟨?_, ?_, ?_⟩
  · unfold validate_file
    rw [if_neg hnotbig]
    by_cases h : f.content_type ∈ allowed_types
    · simp [h, Except.isOk, Except.toBool]
    · simp [h, Except.isOk, Except.toBool]
  · intro h
    unfold validate_file
    rw [if_neg hnotbig, if_neg (by simpa using h)]
  · intro h
    have hv : validate_file f =
        .error ("File type '" ++ f.content_type ++ "' is not supported. " ++
          "Allowed types: " ++ String.intercalate ", " allowed_types) := by
      unfold validate_file
      rw [if_neg hnotbig, if_pos (by simpa using h)]
    refine ⟨hv, ?_⟩
    intro inp store hf
    simp [create, hf, hv]

/-- Witness for C4 at a small file with declared type `video/mp4`. -/
theorem C4_type_allowlist_witness :
    ((⟨"clip.mp4", 5, "video/mp4"⟩ : UFile).size ≤ max_size) ∧
    (((validate_file ⟨"clip.mp4", 5, "video/mp4"⟩).isOk = true ↔
        (⟨"clip.mp4", 5, "video/mp4"⟩ : UFile).content_type ∈ allowed_types) ∧
      ((⟨"clip.mp4", 5, "video/mp4"⟩ : UFile).content_type ∈ allowed_types →
        validate_file ⟨"clip.mp4", 5, "video/mp4"⟩ = .ok ⟨"clip.mp4", 5, "video/mp4"⟩) ∧
      ((⟨"clip.mp4", 5, "video/mp4"⟩ : UFile).content_type ∉ allowed_types →
        validate_file ⟨"clip.mp4", 5, "video/mp4"⟩ =
          .error ("File type '" ++ (⟨"clip.mp4", 5, "video/mp4"⟩ : UFile).content_type ++
            "' is not supported. " ++
            "Allowed types: " ++ String.intercalate ", " allowed_types) ∧
        ∀ inp store, inp.file = some ⟨"clip.mp4", 5, "video/mp4"⟩ →
          (create inp store).response.status = 400 ∧
          (create inp store).response.success = false ∧
          (create inp store).store = store ∧
          (create inp store).writeAttempts = 0)) :=
  ⟨by decide, C4_type_allowlist _ (by decide)⟩

/-- C2. Every create request that succeeds (`success = true` in the
response) persisted exactly one new row: the store afterwards is the old
store with a single appended row whose `cloudinary_url` is the gateway's
`secure_url`, whose `original_name` is the submitted file's name, whose
`file_size` is the submitted byte length and whose `content_type` is the
declared type; the response is 201 with the success message and the
serialized row under `data`. -/
theorem C2_success_persists (inp : CreateInput) (store : List Record)
    (hsucc : (create inp store).response.success = true) :
    ∃ f u row, inp.file = some f ∧
      (upload_to_cloudinary inp.transport).secure_url = some u ∧
      (create inp store).store = store ++ [row] ∧
      row.cloudinary_url = u ∧
      row.original_name = f.name ∧
      row.file_size = some f.size ∧
      row.content_type = some f.content_type ∧
      (create inp store).response.status = 201 ∧
      (create inp store).response.message = "File uploaded successfully" ∧
      (create inp store).response.data = some (serializeRecord row) := by
  rcases hf : inp.file with _ | f
  · simp [create, hf] at hsucc
  rcases hv : validate_file f with msg | f'
  · simp [create, hf, hv] at hsucc
  rcases he : errTruthy (upload_to_cloudinary inp.transport) with _ | _
  · rcases hu : (upload_to_cloudinary inp.transport).secure_url with _ | u
    · simp [create, hf, hv, he, hu] at hsucc
    · rcases hp : inp.persist with _ | e
      · refine ⟨f, u,
          { id := store.length + 1, original_name := f.name, cloudinary_url := u,
            file_size := some f.size, content_type := some f.content_type,
            created_at := inp.now }, rfl, rfl, ?_⟩
        simp [create, hf, hv, he, hu, hp]
      · simp [create, hf, hv, he, hu, hp] at hsucc
  · simp [create, hf, hv, he] at hsucc

/-- Witness for C2 at the happy-path input. -/
theorem C2_success_persists_witness :
    ((create happyInput []).response.success = true) ∧
    (∃ f u row, happyInput.file = some f ∧
      (upload_to_cloudinary happyInput.transport).secure_url = some u ∧
      (create happyInput []).store = [] ++ [row] ∧
      row.cloudinary_url = u ∧
      row.original_name = f.name ∧
      row.file_size = some f.size ∧
      row.content_type = some f.content_type ∧
      (create happyInput []).response.status = 201 ∧
      (create happyInput []).response.message = "File uploaded successfully" ∧
      (create happyInput []).response.data = some (serializeRecord row)) :=
  ⟨by decide, C2_success_persists happyInput [] (by decide)⟩

/-- C3. On every create request the database write is attempted at most
once; whenever no write is attempted the store is unchanged (this covers
validation failure, a truthy gateway error and a missing `secure_url`);
whenever a write is attempted, validation had passed and the gateway
result was error-free with a `secure_url` present; and a raising write is
never retried — the store is unchanged and the attempt count is still 1. -/
theorem C3_single_write (inp : CreateInput) (store : List Record) :
    (create inp store).writeAttempts ≤ 1 ∧
    ((create inp store).writeAttempts = 0 → (create inp store).store = store) ∧
    ((create inp store).writeAttempts = 1 →
      errTruthy (upload_to_cloudinary inp.transport) = false ∧
      ((upload_to_cloudinary inp.transport).secure_url).isSome = true ∧
      ∃ f, inp.file = some f ∧ validate_file f = .ok f) ∧
    (∀ e, inp.persist = .raises e →
      (create inp store).store = store ∧ (create inp store).writeAttempts ≤ 1) := by
  rcases hf : inp.file with _ | f
  · simp [create, hf]
  rcases hv : validate_file f with msg | f'
  · simp [create, hf, hv]
  have hv' : f' = f := by
    have := hv
    unfold validate_file at this
    split at this
    · simp at this
    · split at this
      · simp at this
      · simpa using this.symm
  subst hv'
  rcases he : errTruthy (upload_to_cloudinary inp.transport) with _ | _
  · rcases hu : (upload_to_cloudinary inp.transport).secure_url with _ | u
    · simp [create, hf, hv, he, hu]
    · rcases hp : inp.persist with _ | e
      · simp [create, hf, hv, he, hu, hp]
      · simp [create, hf, hv, he, hu, hp]
  · simp [create, hf, hv, he]

/-- Witness for C3 at the happy-path input. -/
theorem C3_single_write_witness :
    (create happyInput []).writeAttempts ≤ 1 ∧
    ((create happyInput []).writeAttempts = 0 → (create happyInput []).store = []) ∧
    ((create happyInput []).writeAttempts = 1 →
      errTruthy (upload_to_cloudinary happyInput.transport) = false ∧
      ((upload_to_cloudinary happyInput.transport).secure_url).isSome = true ∧
      ∃ f, happyInput.file = some f ∧ validate_file f = .ok f) ∧
    (∀ e, happyInput.persist = .raises e →
      (create happyInput []).store = [] ∧ (create happyInput []).writeAttempts ≤ 1) :=
  C3_single_write happyInput []

/-- C5 counterexample. A gateway dictionary that carries the `error` key
bound to the empty string (what `upload_to_cloudinary` produces for an
exception whose string form is empty) takes the no-URL branch, not the
`Cloudinary upload failed` branch: the key's presence alone does not
select the transport-error response, its Python truthiness does. -/
theorem C5_counterexample :
    (upload_to_cloudinary emptyErrInput.transport).error = some "" ∧
    (create emptyErrInput []).response.status = 400 ∧
    (create emptyErrInput []).response.message = "Upload failed - no URL received" ∧
    (create emptyErrInput []).response.message ≠ "Cloudinary upload failed" := by
  refine ⟨rfl, rfl, rfl, ?_⟩
  decide

/-- C5 as amended: a gateway result carrying a non-empty `error` value
yields 400 with message `Cloudinary upload failed` and the error under
`errors.cloudinary`; a result with no truthy error and no `secure_url`
key yields 400 with message `Upload failed - no URL received` and
`errors.cloudinary = "No secure URL returned"`; the two messages are
distinct, so the responses never coincide. -/
theorem C5_failure_modes (inp : CreateInput) (store : List Record) (f : UFile)
    (hf : inp.file = some f) (hv : validate_file f = .ok f) :
    (∀ e, (upload_to_cloudinary inp.transport).error = some e → e ≠ "" →
      (create inp store).response.status = 400 ∧
      (create inp store).response.message = "Cloudinary upload failed" ∧
      (create inp store).response.errors = some (.cloudinary e)) ∧
    (errTruthy (upload_to_cloudinary inp.transport) = false →
      (upload_to_cloudinary inp.transport).secure_url = none →
      (create inp store).response.status = 400 ∧
      (create inp store).response.message = "Upload failed - no URL received" ∧
      (create inp store).response.errors = some (.cloudinary "No secure URL returned")) ∧
    ("Cloudinary upload failed" : String) ≠ "Upload failed - no URL received" := by
  refine ⟨?_, ?_, by decide⟩
  · intro e he hne
    have het : errTruthy (upload_to_cloudinary inp.transport) = true := by
      simp [errTruthy, he, hne]
    simp [create, hf, hv, het, he]
  · intro het hu
    simp [create, hf, hv, het, hu]

/-- Witness for the amended C5 at a truthy-error gateway result. -/
theorem C5_failure_modes_witness :
    (errUrlInput.file = some happyFile) ∧
    (validate_file happyFile = .ok happyFile) ∧
    ((∀ e, (upload_to_cloudinary errUrlInput.transport).error = some e → e ≠ "" →
      (create errUrlInput []).response.status = 400 ∧
      (create errUrlInput []).response.message = "Cloudinary upload failed" ∧
      (create errUrlInput []).response.errors = some (.cloudinary e)) ∧
    (errTruthy (upload_to_cloudinary errUrlInput.transport) = false →
      (upload_to_cloudinary errUrlInput.transport).secure_url = none →
      (create errUrlInput []).response.status = 400 ∧
      (create errUrlInput []).response.message = "Upload failed - no URL received" ∧
      (create errUrlInput []).response.errors = some (.cloudinary "No secure URL returned")) ∧
    ("Cloudinary upload failed" : String) ≠ "Upload failed - no URL received") :=
  ⟨rfl, rfl, C5_failure_modes errUrlInput [] happyFile rfl rfl⟩

/-- C6. Every transport exception is caught by `upload_to_cloudinary` and
converted into the dictionary with the exception's string form under the
`error` key (and no `secure_url` key); the function is total on transport
outcomes, so no exception ever propagates to the caller. -/
theorem C6_gateway_catches (e : String) :
    upload_to_cloudinary (.raises e) = { error := some e, secure_url := none } := rfl

/-- C7. When the remote upload produced a secure URL but the database
write raises, the response is 500 with success false, message
`Upload failed` and the exception's string under `errors.server`, and
exactly one message is logged; the orchestrator returns this envelope
rather than letting the exception escape. -/
theorem C7_persistence_failure (inp : CreateInput) (store : List Record)
    (f : UFile) (u e : String)
    (hf : inp.file = some f) (hv : validate_file f = .ok f)
    (he : errTruthy (upload_to_cloudinary inp.transport) = false)
    (hu : (upload_to_cloudinary inp.transport).secure_url = some u)
    (hp : inp.persist = .raises e) :
    (create inp store).response.status = 500 ∧
    (create inp store).response.success = false ∧
    (create inp store).response.message = "Upload failed" ∧
    (create inp store).response.errors = some (.server e) ∧
    (create inp store).logs = ["Upload error: " ++ e] ∧
    (create inp store).logs.length = 1 := by
  simp [create, hf, hv, he, hu, hp]

/-- Witness for C7 at a raising database write. -/
theorem C7_persistence_failure_witness :
    (raiseInput.file = some happyFile) ∧
    (validate_file happyFile = .ok happyFile) ∧
    (errTruthy (upload_to_cloudinary raiseInput.transport) = false) ∧
    ((upload_to_cloudinary raiseInput.transport).secure_url = some "https://host/x.png") ∧
    (raiseInput.persist = .raises "db down") ∧
    ((create raiseInput []).response.status = 500 ∧
      (create raiseInput []).response.success = false ∧
      (create raiseInput []).response.message = "Upload failed" ∧
      (create raiseInput []).response.errors = some (.server "db down") ∧
      (create raiseInput []).logs = ["Upload error: " ++ "db down"] ∧
      (create raiseInput []).logs.length = 1) :=
  ⟨rfl, rfl, rfl, rfl, rfl,
    C7_persistence_failure raiseInput [] happyFile _ _ rfl rfl rfl rfl rfl⟩

/-- C8 counterexample. A row whose `file_size` column is set to 0 is
serialized with `file_size_mb = None`, not with the computed value
`round(0 / 1048576, 2) = 0`: the code guards on Python truthiness of
`file_size`, under which 0 behaves like an unset field. -/
theorem C8_counterexample :
    zeroSizeRecord.file_size = some 0 ∧
    (serializeRecord zeroSizeRecord).file_size_mb = none ∧
    spec_file_size_mb zeroSizeRecord.file_size = some 0 ∧
    (serializeRecord zeroSizeRecord).file_size_mb ≠ spec_file_size_mb zeroSizeRecord.file_size := by
  refine ⟨rfl, rfl, ?_, ?_⟩ <;>
    simp [zeroSizeRecord, spec_file_size_mb, pyRound2, roundHalfEven, serializeRecord,
      get_file_size_mb]

/-- C8 as amended: `file_size_mb` equals `round(file_size / 1048576, 2)`
whenever `file_size` is set and non-zero, and is null when `file_size` is
unset or set to 0. -/
theorem C8_file_size_mb (r : Record) :
    (r.file_size ≠ some 0 →
      (serializeRecord r).file_size_mb = spec_file_size_mb r.file_size) ∧
    (r.file_size = some 0 → (serializeRecord r).file_size_mb = none) := by
  rcases hfs : r.file_size with _ | n
  · simp [serializeRecord, get_file_size_mb, spec_file_size_mb, hfs]
  · rcases Nat.eq_zero_or_pos n with h0 | h0
    · subst h0
      simp [serializeRecord, get_file_size_mb, hfs]
    · have hn : n ≠ 0 := by omega
      constructor
      · intro _
        simp only [serializeRecord, get_file_size_mb, spec_file_size_mb, hfs, hn,
          ite_true, if_pos, ne_eq, not_false_eq_true]
        norm_num
      · intro h
        exact absurd (by simpa using h) hn

/-- Witness for the amended C8 at a one-MiB row. -/
theorem C8_file_size_mb_witness :
    (oneMbRecord.file_size ≠ some 0 →
      (serializeRecord oneMbRecord).file_size_mb = spec_file_size_mb oneMbRecord.file_size) ∧
    (oneMbRecord.file_size = some 0 → (serializeRecord oneMbRecord).file_size_mb = none) :=
  C8_file_size_mb oneMbRecord

/-- C9. The list endpoint answers 200 with success true, a `count` equal
to the length of `data`, `data` holding the serialization of every stored
row, and rows ordered descending by `created_at`: for three rows created
at times t1 < t2 < t3 the data list is the serialization of the t3 row,
then the t2 row, then the t1 row. -/
theorem C9_list_endpoint (store : List Record) (r1 r2 r3 : Record)
    (h12 : r1.created_at < r2.created_at) (h23 : r2.created_at < r3.created_at) :
    (listFiles store).status = 200 ∧
    (listFiles store).success = true ∧
    (listFiles store).count = (listFiles store).data.length ∧
    List.Perm (listFiles store).data (store.map serializeRecord) ∧
    (listFiles [r1, r2, r3]).data =
      [serializeRecord r3, serializeRecord r2, serializeRecord r1] := by
  have n23 : ¬ r3.created_at ≤ r2.created_at := by omega
  have n13 : ¬ r3.created_at ≤ r1.created_at := by omega
  have n12 : ¬ r2.created_at ≤ r1.created_at := by omega
  refine ⟨rfl, rfl, rfl, ?_, ?_⟩
  · exact (orderByCreatedDesc_perm store).map serializeRecord
  · simp [listFiles, orderByCreatedDesc, insertDesc, n23, n13, n12]

/-- Witness for C9 at three rows created at times 1 < 2 < 3. -/
theorem C9_list_endpoint_witness :
    ((rowAt 1).created_at < (rowAt 2).created_at) ∧
    ((rowAt 2).created_at < (rowAt 3).created_at) ∧
    ((listFiles []).status = 200 ∧
      (listFiles []).success = true ∧
      (listFiles []).count = (listFiles []).data.length ∧
      List.Perm (listFiles []).data (List.map serializeRecord []) ∧
      (listFiles [rowAt 1, rowAt 2, rowAt 3]).data =
        [serializeRecord (rowAt 3), serializeRecord (rowAt 2), serializeRecord (rowAt 1)]) :=
  ⟨by decide, by decide, C9_list_endpoint [] _ _ _ (by decide) (by decide)⟩

/-- C10. A gateway result that carries both a non-empty `error` value and
a `secure_url` key takes the error branch: 400 with message
`Cloudinary upload failed`, no row persisted and no write attempted — the
error check precedes the secure-URL check. -/
theorem C10_error_precedence (inp : CreateInput) (store : List Record)
    (f : UFile) (e u : String)
    (hf : inp.file = some f) (hv : validate_file f = .ok f)
    (he : (upload_to_cloudinary inp.transport).error = some e) (hne : e ≠ "")
    (_hu : (upload_to_cloudinary inp.transport).secure_url = some u) :
    (create inp store).response.status = 400 ∧
    (create inp store).response.message = "Cloudinary upload failed" ∧
    (create inp store).response.errors = some (.cloudinary e) ∧
    (create inp store).store = store ∧
    (create inp store).writeAttempts = 0 := by
  have het : errTruthy (upload_to_cloudinary inp.transport) = true := by
    simp [errTruthy, he, hne]
  simp [create, hf, hv, het, he]

/-- Witness for C10 at a result holding both an error and a URL. -/
theorem C10_error_precedence_witness :
    (errUrlInput.file = some happyFile) ∧
    (validate_file happyFile = .ok happyFile) ∧
    ((upload_to_cloudinary errUrlInput.transport).error = some "boom") ∧
    ("boom" ≠ "") ∧
    ((upload_to_cloudinary errUrlInput.transport).secure_url = some "https://host/x.png") ∧
    ((create errUrlInput []).response.status = 400 ∧
      (create errUrlInput []).response.message = "Cloudinary upload failed" ∧
      (create errUrlInput []).response.errors = some (.cloudinary "boom") ∧
      (create errUrlInput []).store = [] ∧
      (create errUrlInput []).writeAttempts = 0) :=
  ⟨rfl, rfl, rfl, by decide, rfl,
    C10_error_precedence errUrlInput [] happyFile _ _ rfl rfl rfl (by decide) rfl⟩

end Upload
